import Mathlib

/-!
Shallow embedding of `secsgem/secsHandler.py` (the SECS message dispatch and
correlation layer) together with proofs about its behaviour.

The embedding follows the Python source closely:

* Python dicts keyed by integers or strings become association lists
  (`dictLookup` / `dictInsert` mirror `d[k]` membership tests, reads and
  writes, including insertion-order preservation).
* The stream/function descriptor tables are association lists from stream
  number to an inner association list from function number to a descriptor.
* Code that can raise a Python exception is modelled with `Except String`;
  an `Except.error` value is an exception propagating out of the modelled
  function.
* Logging is modelled by returning the list of log records a call emits.
* The callback fan-out thread started by `_onHsmsPacketReceived` is modelled
  by recording the effects of running `_runCallbacks` to completion.
-/

/-- Severity of a log record, mirroring the `logging` levels used in the
source (`debug`, `info`, `warning`, `error`). -/
inductive LogLevel where
  | debug
  | info
  | warning
  | error
deriving DecidableEq, Repr

/-- One emitted log record: a level and the formatted message. -/
structure LogEntry where
  level : LogLevel
  msg : String
deriving DecidableEq, Repr

/-- Association-list model of a Python dict read: `d[k]` / `k in d`.
First binding for the key wins, matching dict semantics. -/
def dictLookup {κ α : Type} [DecidableEq κ] : List (κ × α) → κ → Option α
  | [], _ => none
  | (k0, v0) :: rest, k => if k = k0 then some v0 else dictLookup rest k

/-- Association-list model of a Python dict write `d[k] = v`: replaces the
binding in place if the key exists, otherwise appends it, preserving
insertion order like a Python dict. -/
def dictInsert {κ α : Type} [DecidableEq κ] : List (κ × α) → κ → α → List (κ × α)
  | [], k, v => [(k, v)]
  | (k0, v0) :: rest, k, v =>
    if k = k0 then (k, v) :: rest else (k0, v0) :: dictInsert rest k v

/-- Structured value tree produced by the binary codec collaborator
(abstract: the core never inspects its shape beyond indexing). -/
inductive SecsVal where
  | num : Nat → SecsVal
  | str : String → SecsVal
  | boolean : Bool → SecsVal
  | list : List SecsVal → SecsVal
  | dict : List (String × SecsVal) → SecsVal

/-- A constructed or decoded stream/function message object: the class name
of the `secsSxFx` class it instantiates and its structured value. -/
structure Message where
  name : String
  value : SecsVal

/-- Modelled from the spec: the string rendering of a message object used in
log interpolation (the `secsSxFx` classes live outside this file). -/
def messageRepr (m : Message) : String := m.name

/-- A message descriptor, one `secsSxFx` class from the stream/function
tables: its class name, its constructor (`cls(args)`), and the codec decode
of a raw body (`instance.decode(data)`), which may raise. -/
structure Descriptor where
  name : String
  make : List SecsVal → Message
  decodeBody : Nat → Except String Message

/-- The two-level stream/function table: stream number to an inner dict from
function number to descriptor. -/
def SFTable : Type := List (Nat × List (Nat × Descriptor))

/-- Header of an hsms packet as read by this layer. -/
structure PacketHeader where
  stream : Nat
  function : Nat
  sessionID : Nat
  system : Nat
  requireResponse : Bool
deriving DecidableEq, Repr

/-- An inbound hsms packet: header plus raw body (the body is abstract to
this layer; only the codec interprets it). -/
structure Packet where
  header : PacketHeader
  data : Nat
deriving DecidableEq, Repr

/-- Modelled from the spec: the string rendering of a packet used in log
interpolation (`hsmsPacket.__str__` lives in the hsms layer, not in src). -/
def packetRepr (p : Packet) : String :=
  "packet S" ++ Nat.repr p.header.stream ++ "F" ++ Nat.repr p.header.function

/-- Python return value of a registered callback, as far as the dispatcher
distinguishes them: the literal `False` object, `None`, `True`, or any other
object. -/
inductive PyVal where
  | pyBool : Bool → PyVal
  | pyNone : PyVal
  | obj : Nat → PyVal
deriving DecidableEq, Repr

/-- The Python test `v is False`: identity with the interned `False` object.
Only the literal `False` satisfies it; `None`, `0`-like objects and `True`
do not. -/
def isFalseLit : PyVal → Bool
  | PyVal.pyBool false => true
  | _ => false

/-- Outcome of invoking one callback: a returned value or a raised
exception. -/
inductive CbResult where
  | ret : PyVal → CbResult
  | exn : String → CbResult

/-- A registered callback. The Python callback receives `(self, response)`;
the handler argument is dropped here since callbacks are opaque
application-supplied functions. -/
def Callback : Type := Packet → CbResult

/-- The `%02d` rendering used in the warning message: decimal, zero-padded
to at least two digits. -/
def fmt02 (n : Nat) : String :=
  if n < 10 then "0" ++ Nat.repr n else Nat.repr n

/-- The warning text logged on a table miss:
`unknown function S%02dF%02d` with stream and function. -/
def unknownFunctionMsg (stream function : Nat) : String :=
  "unknown function S" ++ fmt02 stream ++ "F" ++ fmt02 function

/-- The error text logged when a callback raises
(`secsHandler.CallbackRunner : exception ...`); the appended Python stack
trace is not modelled. -/
def callbackErrorMsg (e : String) : String :=
  "secsHandler.CallbackRunner : exception " ++ e ++ "\n"

/-- Snapshot of a `secsHandler` object's attributes as the dispatch and
convenience methods read them: its role flag, the two per-role tables, the
truthiness of `self.connection`, the callback registry from
`StreamFunctionCallbackHandler`, and the transport behaviour behind
`sendAndWaitForResponse`. -/
structure Handler where
  isHost : Bool
  secsStreamsFunctionsHost : SFTable
  secsStreamsFunctionsEquipment : SFTable
  connection : Bool
  callbacks : List (String × List Callback)
  transport : Message → Option Packet

/-- The `secsHandler.streamFunction` method: selects the table for the
handler's own role, reports a missing stream or a missing function under an
existing stream identically (warning log, `None`), and returns the matching
descriptor otherwise. Result: the returned value and the emitted log
records. -/
def streamFunction (h : Handler) (stream function : Nat) :
    Option Descriptor × List LogEntry :=
  let secs_streams_functions :=
    if h.isHost then h.secsStreamsFunctionsHost else h.secsStreamsFunctionsEquipment
  match dictLookup secs_streams_functions stream with
  | none => (none, [⟨LogLevel.warning, unknownFunctionMsg stream function⟩])
  | some inner =>
    match dictLookup inner function with
    | none => (none, [⟨LogLevel.warning, unknownFunctionMsg stream function⟩])
    | some d => (some d, [])

/-- Resolver outcome as the spec words it: the flat two-level lookup of
(stream, function) in a given table, with no role selection or logging.
Used only to state what `streamFunction` and `secsDecode` compute. -/
def lookupSF (tbl : SFTable) (stream function : Nat) : Option Descriptor :=
  (dictLookup tbl stream).bind (fun inner => dictLookup inner function)

/-- The table `secsDecode` draws from: the table of the role opposite the
handler's own (`isHost` reads the Equipment table and vice versa). -/
def decodeTable (h : Handler) : SFTable :=
  if h.isHost then h.secsStreamsFunctionsEquipment else h.secsStreamsFunctionsHost

/-- Decoder over an explicitly given table, following the body of
`secsDecode` line by line: missing stream or function yields `None` with a
warning; otherwise the descriptor is instantiated and the codec decode runs
on the packet body, any codec exception propagating as `Except.error`.
Result on success: the decoded message (or `None`) and the log records. -/
def decodeFromTable (tbl : SFTable) (p : Packet) :
    Except String (Option Message × List LogEntry) :=
  match dictLookup tbl p.header.stream with
  | none =>
    Except.ok (none,
      [⟨LogLevel.warning, unknownFunctionMsg p.header.stream p.header.function⟩])
  | some inner =>
    match dictLookup inner p.header.function with
    | none =>
      Except.ok (none,
        [⟨LogLevel.warning, unknownFunctionMsg p.header.stream p.header.function⟩])
    | some d =>
      let dbg : LogEntry :=
        ⟨LogLevel.debug,
          "decoding function S" ++ Nat.repr p.header.stream ++ "F" ++
            Nat.repr p.header.function ++ " using " ++ d.name⟩
      match d.decodeBody p.data with
      | Except.error e => Except.error e
      | Except.ok m =>
        Except.ok (some m, [dbg, ⟨LogLevel.debug, "decoded " ++ messageRepr m⟩])

/-- The `secsHandler.secsDecode` method: chooses the table of the opposite
role (`isHost` reads `secsStreamsFunctionsEquipment`, otherwise
`secsStreamsFunctionsHost`) and decodes as `decodeFromTable` does. -/
def secsDecode (h : Handler) (p : Packet) :
    Except String (Option Message × List LogEntry) :=
  let secs_streams_functions :=
    if h.isHost then h.secsStreamsFunctionsEquipment else h.secsStreamsFunctionsHost
  match dictLookup secs_streams_functions p.header.stream with
  | none =>
    Except.ok (none,
      [⟨LogLevel.warning, unknownFunctionMsg p.header.stream p.header.function⟩])
  | some inner =>
    match dictLookup inner p.header.function with
    | none =>
      Except.ok (none,
        [⟨LogLevel.warning, unknownFunctionMsg p.header.stream p.header.function⟩])
    | some d =>
      let dbg : LogEntry :=
        ⟨LogLevel.debug,
          "decoding function S" ++ Nat.repr p.header.stream ++ "F" ++
            Nat.repr p.header.function ++ " using " ++ d.name⟩
      match d.decodeBody p.data with
      | Except.error e => Except.error e
      | Except.ok m =>
        Except.ok (some m, [dbg, ⟨LogLevel.debug, "decoded " ++ messageRepr m⟩])

/-- The dispatch key built at line 128 of the source:
`"s" + str(stream) + "f" + str(function)` (decimal, no padding). -/
def callbackIndex (p : Packet) : String :=
  "s" ++ Nat.repr p.header.stream ++ "f" ++ Nat.repr p.header.function

/-- The `for callback in self.callbacks[callback_index]` loop of
`_runCallbacks`, with the running `handeled` flag. Returns the indices of
the callbacks actually invoked (in invocation order), the final `handeled`
flag, and the first exception raised, if any; a raised exception stops the
loop at the raising callback. -/
def runLoop (response : Packet) :
    List Callback → Nat → Bool → List Nat × Bool × Option String
  | [], _, handeled => ([], handeled, none)
  | c :: rest, i, handeled =>
    match c response with
    | CbResult.exn e => ([i], handeled, some e)
    | CbResult.ret v =>
      let handeled2 := if isFalseLit v then handeled else true
      let r := runLoop response rest (i + 1) handeled2
      (i :: r.1, r.2.1, r.2.2)

/-- Observable effects of one `_runCallbacks` run: which callbacks were
invoked (by position, in order), what was pushed to the unclaimed-packet
queue, and what was logged. -/
structure CbEffects where
  invoked : List Nat
  queued : List Packet
  logs : List LogEntry

/-- The `_runCallbacks` thread body: looks the key up again in
`self.callbacks`, runs every callback in registration order inside one
`try`, queues the packet if no callback returned anything but the literal
`False`, and catches any exception from the loop, logging it at error
level. The `try` wraps the whole loop, so an exception also skips the
queueing step. -/
def runCallbacks (callbacks : List (String × List Callback))
    (callback_index : String) (response : Packet) : CbEffects :=
  match dictLookup callbacks callback_index with
  | none => { invoked := [], queued := [],
              logs := [⟨LogLevel.error, callbackErrorMsg "KeyError"⟩] }
  | some cbs =>
    let r := runLoop response cbs 0 false
    match r.2.2 with
    | some e =>
      { invoked := r.1, queued := [],
        logs := [⟨LogLevel.error, callbackErrorMsg e⟩] }
    | none =>
      { invoked := r.1,
        queued := if r.2.1 then [] else [response],
        logs := [] }

/-- The `logger.info` record written for every packet whose decode did not
raise: the packet alone when decoding yielded `None`, packet plus decoded
message otherwise. -/
def infoLogFor (p : Packet) (m : Option Message) : LogEntry :=
  match m with
  | none => ⟨LogLevel.info, "< " ++ packetRepr p⟩
  | some msg => ⟨LogLevel.info, "< " ++ packetRepr p ++ "\n" ++ messageRepr msg⟩

/-- Result of one `_onHsmsPacketReceived` call that returned normally: the
log records written on the receive path, the packets queued directly, and,
when a callback thread was started, the recorded effects of that thread
running `_runCallbacks` to completion. -/
structure DispatchResult where
  logs : List LogEntry
  queuedDirect : List Packet
  thread : Option CbEffects

/-- All pushes of the packet to the unclaimed-packet queue caused by one
received packet: direct pushes plus pushes from the callback thread. -/
def totalQueued (r : DispatchResult) : List Packet :=
  r.queuedDirect ++ (match r.thread with
    | some eff => eff.queued
    | none => [])

/-- The `_onHsmsPacketReceived` entry point: decode (a codec exception
propagates out as `Except.error`, aborting the dispatch of this packet),
log the packet, build the dispatch key, and either start the callback
thread (key present in `self.callbacks`) or queue the packet directly. -/
def onHsmsPacketReceived (h : Handler) (p : Packet) :
    Except String DispatchResult :=
  match secsDecode h p with
  | Except.error e => Except.error e
  | Except.ok (message, dlogs) =>
    let callback_index := callbackIndex p
    match dictLookup h.callbacks callback_index with
    | some _ =>
      Except.ok { logs := dlogs ++ [infoLogFor p message],
                  queuedDirect := [],
                  thread := some (runCallbacks h.callbacks callback_index p) }
    | none =>
      Except.ok { logs := dlogs ++ [infoLogFor p message],
                  queuedDirect := [p],
                  thread := none }

/-! ## Convenience operations (request/response correlation)

Each operation returns the Python value it produces (with `Except.error`
for an exception propagating out of the call) together with the list of
messages handed to the transport's send. -/

/-- Modelled from the spec: `sendAndWaitForResponse` is inherited from the
hsms handler base class, which is not in src; per the spec it sends the
message through the transport and blocks for the correlated response
packet, or yields null. -/
def sendAndWaitForResponse (h : Handler) (m : Message) :
    Option Packet × List Message :=
  (h.transport m, [m])

/-- Modelled from the spec: indexing a decoded message object
(`message[i]`), the codec collaborator's structured-value access used by
`requestSV`. -/
def messageGetItem (m : Message) (i : Nat) : Except String SecsVal :=
  match m.value with
  | SecsVal.list xs =>
    match xs.get? i with
    | some v => Except.ok v
    | none => Except.error "IndexError: list index out of range"
  | _ => Except.error "TypeError: object is not subscriptable"

/-- Modelled from the spec: the `get()` accessor of a decoded message
object, returning its structured value. -/
def messageGet (m : Message) : SecsVal := m.value

/-- The exception raised by calling the `None` returned by a failed
`streamFunction` lookup. -/
def noneNotCallable : String := "TypeError: NoneType object is not callable"

/-- The exception raised by `secsDecode` reading `packet.header` when
`sendAndWaitForResponse` returned `None`. -/
def noneNoHeader : String :=
  "AttributeError: NoneType object has no attribute header"

/-- The `disableCEIDs` method (S2F37 with CEED off and an empty CEID
list): soft `None` without a connection, otherwise send and return the
response packet. -/
def disableCEIDs (h : Handler) : Except String (Option Packet) × List Message :=
  if !h.connection then (Except.ok none, [])
  else
    match (streamFunction h 2 37).1 with
    | none => (Except.error noneNotCallable, [])
    | some d =>
      let r := sendAndWaitForResponse h
        (d.make [SecsVal.dict [("CEED", SecsVal.boolean false),
                               ("CEID", SecsVal.list [])]])
      (Except.ok r.1, r.2)

/-- The `disableCEIDReports` method (S2F33 with DATAID 0 and empty DATA). -/
def disableCEIDReports (h : Handler) :
    Except String (Option Packet) × List Message :=
  if !h.connection then (Except.ok none, [])
  else
    match (streamFunction h 2 33).1 with
    | none => (Except.error noneNotCallable, [])
    | some d =>
      let r := sendAndWaitForResponse h
        (d.make [SecsVal.dict [("DATAID", SecsVal.num 0),
                               ("DATA", SecsVal.list [])]])
      (Except.ok r.1, r.2)

/-- Shared shape of the query operations `listSVs`, `requestSVs`,
`listECs` and `requestECs`: guard on the connection, build the request via
`streamFunction`, send, and decode the response packet. -/
def queryOperation (h : Handler) (stream function : Nat) (arg : SecsVal) :
    Except String (Option Message) × List Message :=
  if !h.connection then (Except.ok none, [])
  else
    match (streamFunction h stream function).1 with
    | none => (Except.error noneNotCallable, [])
    | some d =>
      let r := sendAndWaitForResponse h (d.make [arg])
      match r.1 with
      | none => (Except.error noneNoHeader, r.2)
      | some pkt =>
        match secsDecode h pkt with
        | Except.error e => (Except.error e, r.2)
        | Except.ok m => (Except.ok m.1, r.2)

/-- The `listSVs` method: S1F11 with an empty list. -/
def listSVs (h : Handler) : Except String (Option Message) × List Message :=
  queryOperation h 1 11 (SecsVal.list [])

/-- The `requestSVs` method: S1F3 with the requested SV ids. -/
def requestSVs (h : Handler) (svs : List SecsVal) :
    Except String (Option Message) × List Message :=
  queryOperation h 1 3 (SecsVal.list svs)

/-- The `requestSV` method: `self.requestSVs([sv])[0]`. Subscripting the
result raises a `TypeError` when `requestSVs` returned `None` (as it does
without a connection). -/
def requestSV (h : Handler) (sv : SecsVal) :
    Except String SecsVal × List Message :=
  let r := requestSVs h [sv]
  match r.1 with
  | Except.error e => (Except.error e, r.2)
  | Except.ok none =>
    (Except.error "TypeError: NoneType object is not subscriptable", r.2)
  | Except.ok (some m) =>
    match messageGetItem m 0 with
    | Except.error e => (Except.error e, r.2)
    | Except.ok v => (Except.ok v, r.2)

/-- The `listECs` method: S2F29 with an empty list. -/
def listECs (h : Handler) : Except String (Option Message) × List Message :=
  queryOperation h 2 29 (SecsVal.list [])

/-- The `requestECs` method: S2F13 with the requested EC ids. -/
def requestECs (h : Handler) (ecs : List SecsVal) :
    Except String (Option Message) × List Message :=
  queryOperation h 2 13 (SecsVal.list ecs)

/-- The `requestEC` method: `self.requestECs([ec])` (no subscripting, the
value of `requestECs` is returned as is). -/
def requestEC (h : Handler) (ec : SecsVal) :
    Except String (Option Message) × List Message :=
  requestECs h [ec]

/-- The `setECs` method: S2F15 with id/value pairs, returning
`self.secsDecode(packet).get()`; calling `get` on a `None` decode result
raises. -/
def setECs (h : Handler) (ecs : List SecsVal) :
    Except String (Option SecsVal) × List Message :=
  if !h.connection then (Except.ok none, [])
  else
    match (streamFunction h 2 15).1 with
    | none => (Except.error noneNotCallable, [])
    | some d =>
      let r := sendAndWaitForResponse h (d.make [SecsVal.list ecs])
      match r.1 with
      | none => (Except.error noneNoHeader, r.2)
      | some pkt =>
        match secsDecode h pkt with
        | Except.error e => (Except.error e, r.2)
        | Except.ok (none, _) =>
          (Except.error "AttributeError: NoneType object has no attribute get",
           r.2)
        | Except.ok (some m, _) => (Except.ok (some (messageGet m)), r.2)

/-- The `setEC` method: `self.setECs([[ec, value]])`. -/
def setEC (h : Handler) (ec value : SecsVal) :
    Except String (Option SecsVal) × List Message :=
  setECs h [SecsVal.list [ec, value]]

/-- The `sendEquipmentTerminal` method: S10F3 with terminal id and text. -/
def sendEquipmentTerminal (h : Handler) (terminal_id : Nat) (text : String) :
    Except String (Option Packet) × List Message :=
  if !h.connection then (Except.ok none, [])
  else
    match (streamFunction h 10 3).1 with
    | none => (Except.error noneNotCallable, [])
    | some d =>
      let r := sendAndWaitForResponse h
        (d.make [SecsVal.dict [("TID", SecsVal.num terminal_id),
                               ("TEXT", SecsVal.str text)]])
      (Except.ok r.1, r.2)

/-- The `areYouThere` method: S1F1 with no arguments; the response is
discarded and the method returns `None` on both paths. -/
def areYouThere (h : Handler) : Except String (Option Unit) × List Message :=
  if !h.connection then (Except.ok none, [])
  else
    match (streamFunction h 1 1).1 with
    | none => (Except.error noneNotCallable, [])
    | some d =>
      let r := sendAndWaitForResponse h (d.make [])
      (Except.ok none, r.2)

/-! ## Class-attribute aliasing model (lines 88-89)

The two `copy.deepcopy` calls are class-body statements: they run once,
when the `secsHandler` class object is created, and bind the copies as
class attributes. `__init__` never rebinds or copies them, so every
instance's attribute lookup resolves to the same class-level dict objects.
To reason about this aliasing the tables are placed in an explicit heap of
dict objects addressed by references. -/

/-- A reference to one mutable dict object in the Python heap. -/
structure Ref where
  id : Nat
deriving DecidableEq, Repr

/-- A heap of stream/function table objects: the next fresh object id and
the store mapping ids to current values. -/
structure Heap where
  next : Nat
  store : List (Nat × SFTable)

/-- The empty heap. -/
def Heap.empty : Heap := ⟨0, []⟩

/-- Allocate a fresh dict object holding the given table value. -/
def Heap.alloc (h : Heap) (t : SFTable) : Heap × Ref :=
  (⟨h.next + 1, (h.next, t) :: h.store⟩, ⟨h.next⟩)

/-- Read the current value of a dict object. -/
def Heap.read (h : Heap) (r : Ref) : SFTable :=
  (dictLookup h.store r.id).getD []

/-- Overwrite the value of an existing dict object in place. -/
def Heap.write (h : Heap) (r : Ref) (t : SFTable) : Heap :=
  ⟨h.next, dictInsert h.store r.id t⟩

/-- One `copy.deepcopy(table)` call: allocates a fresh object whose value
is the source object's current value, leaving the source untouched. -/
def deepcopyRef (h : Heap) (r : Ref) : Heap × Ref :=
  h.alloc (h.read r)

/-- The class attributes of the `secsHandler` class object: references to
the two class-level tables. -/
structure SecsHandlerClass where
  secsStreamsFunctionsHost : Ref
  secsStreamsFunctionsEquipment : Ref

/-- Execution of the class body lines 88-89: the two deep copies of the
module-level prototype tables run exactly once, when the class is defined,
producing the class-level table objects. -/
def secsHandlerClassInit (heap : Heap) (protoHost protoEquipment : Ref) :
    Heap × SecsHandlerClass :=
  let r1 := deepcopyRef heap protoHost
  let r2 := deepcopyRef r1.1 protoEquipment
  (r2.1, ⟨r1.2, r2.2⟩)

/-- One constructed `secsHandler` instance. `__init__` does not copy or
rebind the class tables, so the instance holds no table objects of its
own; attribute lookup falls through to the class. -/
structure HandlerInstance where
  cls : SecsHandlerClass

/-- Instance construction (`__init__`) as far as the tables are concerned:
it records the class and nothing else. -/
def secsHandlerInstanceInit (cls : SecsHandlerClass) : HandlerInstance :=
  ⟨cls⟩

/-- Reading `self.secsStreamsFunctionsHost` on an instance: Python
attribute lookup resolves to the class-level object. -/
def HandlerInstance.hostTable (inst : HandlerInstance) (heap : Heap) : SFTable :=
  heap.read inst.cls.secsStreamsFunctionsHost

/-- Mutating the host table through an instance
(`self.secsStreamsFunctionsHost[stream] = inner`): an in-place update of
the class-level dict object. -/
def HandlerInstance.setHostItem (inst : HandlerInstance) (heap : Heap)
    (stream : Nat) (inner : List (Nat × Descriptor)) : Heap :=
  heap.write inst.cls.secsStreamsFunctionsHost
    (dictInsert (inst.hostTable heap) stream inner)

/-! ## Helper lemmas -/

/-- If every callback in the list returns the literal `False`, the loop
invokes all of them in order, leaves the `handeled` flag unchanged, and
raises nothing. -/
theorem runLoop_all_false (p : Packet) (cbs : List Callback) :
    ∀ (i : Nat) (b : Bool),
      (∀ c ∈ cbs, c p = CbResult.ret (PyVal.pyBool false)) →
      runLoop p cbs i b = (List.range' i cbs.length, b, none) := by
  induction cbs with
  | nil => intro i b _; simp [runLoop]
  | cons c rest ih =>
    intro i b hall
    have hc : c p = CbResult.ret (PyVal.pyBool false) :=
      hall c (List.mem_cons_self c rest)
    have hrest : ∀ x ∈ rest, x p = CbResult.ret (PyVal.pyBool false) :=
      fun x hx => hall x (List.mem_cons_of_mem c hx)
    simp only [runLoop, hc, isFalseLit, if_true]
    rw [ih (i + 1) b hrest]
    simp [List.range'_succ]

/-- Running a list of callbacks that return the given values (raising
nothing): all are invoked, and the final `handeled` flag records whether
any returned value was not the literal `False`. -/
theorem runLoop_map_ret (p : Packet) (vs : List PyVal) :
    ∀ (i : Nat) (b : Bool),
      runLoop p (vs.map (fun v => (fun _ => CbResult.ret v : Callback))) i b
        = (List.range' i vs.length, b || vs.any (fun v => !isFalseLit v), none) := by
  induction vs with
  | nil => intro i b; simp [runLoop]
  | cons v rest ih =>
    intro i b
    simp only [List.map_cons, runLoop]
    rw [ih (i + 1) (if isFalseLit v then b else true)]
    cases hv : isFalseLit v <;>
      simp [List.range'_succ, hv, Bool.or_assoc]

/-- If the callbacks before position `pre.length` all return (whatever
value) and the callback at that position raises `e`, the loop stops there:
exactly the first `pre.length + 1` callbacks are invoked and the exception
is reported. -/
theorem runLoop_prefix_exn (p : Packet) (e : String) (pre : List Callback) :
    ∀ (c : Callback) (post : List Callback) (i : Nat) (b : Bool),
      (∀ x ∈ pre, ∃ v, x p = CbResult.ret v) →
      c p = CbResult.exn e →
      ∃ b2, runLoop p (pre ++ c :: post) i b
        = (List.range' i (pre.length + 1), b2, some e) := by
  induction pre with
  | nil =>
    intro c post i b _ hc
    refine ⟨b, ?_⟩
    simp [runLoop, hc, List.range'_succ]
  | cons x rest ih =>
    intro c post i b hpre hc
    obtain ⟨v, hv⟩ := hpre x (List.mem_cons_self x rest)
    have hrest : ∀ y ∈ rest, ∃ w, y p = CbResult.ret w :=
      fun y hy => hpre y (List.mem_cons_of_mem x hy)
    obtain ⟨b2, hb2⟩ := ih c post (i + 1) (if isFalseLit v then b else true) hrest hc
    refine ⟨b2, ?_⟩
    simp only [List.cons_append, runLoop, hv, List.append_eq]
    rw [hb2]
    simp [List.range'_succ]

/-- When the (stream, function) of the packet misses the decode table,
`secsDecode` returns `None` with one warning record (no exception). -/
theorem secsDecode_notFound (h : Handler) (p : Packet)
    (hnf : lookupSF (decodeTable h) p.header.stream p.header.function = none) :
    secsDecode h p = Except.ok (none,
      [⟨LogLevel.warning, unknownFunctionMsg p.header.stream p.header.function⟩]) := by
  unfold lookupSF decodeTable at hnf
  simp only [secsDecode]
  split
  · rfl
  · rename_i inner h1
    rw [h1] at hnf
    simp only [Option.some_bind] at hnf
    split
    · rfl
    · rename_i d h2
      rw [h2] at hnf
      simp at hnf

/-- When the decode table resolves the packet to a descriptor whose codec
decode raises, the exception propagates out of `secsDecode`. -/
theorem secsDecode_codec_error (h : Handler) (p : Packet) (d : Descriptor)
    (e : String)
    (hd : lookupSF (decodeTable h) p.header.stream p.header.function = some d)
    (he : d.decodeBody p.data = Except.error e) :
    secsDecode h p = Except.error e := by
  unfold lookupSF decodeTable at hd
  simp only [secsDecode]
  split
  · rename_i h1
    rw [h1] at hd
    simp at hd
  · rename_i inner h1
    rw [h1] at hd
    simp only [Option.some_bind] at hd
    split
    · rename_i h2
      rw [h2] at hd
      simp at hd
    · rename_i d2 h2
      rw [h2] at hd
      have hdd : d2 = d := by injection hd
      subst hdd
      rw [he]

/-! ## Concrete scenario inputs used by witnesses and counterexamples -/

/-- A callback that returns the literal `False` (the tri-state "not
handled"). -/
def cbFalse : Callback := fun _ => CbResult.ret (PyVal.pyBool false)

/-- A callback that returns `None`, the default return of a Python handler
that returns nothing. -/
def cbNone : Callback := fun _ => CbResult.ret PyVal.pyNone

/-- A callback that raises. -/
def cbRaise : Callback := fun _ => CbResult.exn "boom"

/-- A descriptor whose codec decode always succeeds. -/
def descOk : Descriptor :=
  { name := "secsS1F4",
    make := fun _ => ⟨"secsS1F4", SecsVal.list []⟩,
    decodeBody := fun _ => Except.ok ⟨"secsS1F4", SecsVal.list [SecsVal.num 7]⟩ }

/-- A descriptor whose codec decode raises (the codec rejects the body). -/
def descBad : Descriptor :=
  { name := "secsS6F11",
    make := fun _ => ⟨"secsS6F11", SecsVal.list []⟩,
    decodeBody := fun _ => Except.error "codec failure" }

/-- A packet with stream 6, function 11. -/
def pkt6f11 : Packet := ⟨⟨6, 11, 0, 0, false⟩, 0⟩

/-- A packet with stream 1, function 3. -/
def pkt1f3 : Packet := ⟨⟨1, 3, 0, 1, true⟩, 2⟩

/-! ## C1 -/

/-- C1: `secsDecode` always resolves the descriptor from the table of the
role opposite the handler's configured one — with `isHost = true` it reads
the Equipment descriptor set, with `isHost = false` the Host set; the
decode is exactly the table-driven decode over that opposite table. -/
theorem secsDecode_uses_opposite_table (h : Handler) (p : Packet) :
    secsDecode h p =
      decodeFromTable
        (if h.isHost then h.secsStreamsFunctionsEquipment
         else h.secsStreamsFunctionsHost) p :=
  rfl

/-! ## C6 -/

/-- C6: `streamFunction` resolves in the handler's own table (host table
when `isHost`, equipment table otherwise); a missing stream and a missing
function under an existing stream both yield `None` with exactly one
warning record whose text zero-pads stream and function to two digits, and
a present pair returns its descriptor with no log. -/
theorem streamFunction_resolution (h : Handler) (stream function : Nat) :
    streamFunction h stream function =
      (lookupSF
        (if h.isHost then h.secsStreamsFunctionsHost
         else h.secsStreamsFunctionsEquipment) stream function,
       Option.elim
         (lookupSF
           (if h.isHost then h.secsStreamsFunctionsHost
            else h.secsStreamsFunctionsEquipment) stream function)
         [⟨LogLevel.warning,
            "unknown function S" ++ fmt02 stream ++ "F" ++ fmt02 function⟩]
         (fun _ => [])) ∧
    fmt02 0 = "00" ∧ fmt02 9 = "09" ∧ fmt02 42 = "42" := by
  refine ⟨?_, by decide, by decide, by decide⟩
  simp only [streamFunction, lookupSF, unknownFunctionMsg]
  split
  · rename_i h1; rw [h1]; rfl
  · rename_i inner h1
    rw [h1]
    simp only [Option.some_bind]
    split
    · rename_i h2; rw [h2]; rfl
    · rename_i d h2; rw [h2]; rfl

/-! ## C9 -/

/-- C9: the dispatch key is exactly the string `s` followed by the decimal
rendering of the header's stream, then `f` and the decimal rendering of the
function, with no padding; hence two packets agreeing on (stream, function)
produce the same key. -/
theorem callbackIndex_format :
    (∀ p : Packet,
       callbackIndex p =
         "s" ++ Nat.repr p.header.stream ++ "f" ++ Nat.repr p.header.function) ∧
    (∀ p q : Packet,
       p.header.stream = q.header.stream →
       p.header.function = q.header.function →
       callbackIndex p = callbackIndex q) := by
  refine ⟨fun p => rfl, fun p q h1 h2 => ?_⟩
  simp [callbackIndex, h1, h2]

/-- Witness for C9 at two distinct concrete packets sharing stream 6 and
function 11. -/
theorem callbackIndex_format_witness :
    callbackIndex pkt6f11 = callbackIndex ⟨⟨6, 11, 5, 9, true⟩, 42⟩ :=
  callbackIndex_format.2 pkt6f11 ⟨⟨6, 11, 5, 9, true⟩, 42⟩ rfl rfl

/-! ## C10 -/

/-- C10: in the fan-out, a callback counts as "not handled" exactly when it
returns the literal `False` object (so `None` counts as handled), and the
packet is queued if and only if no callback returned a non-`False` value. -/
theorem notHandled_only_literal_false :
    (∀ (vs : List PyVal) (idx : String) (p : Packet),
       (runCallbacks [(idx, vs.map (fun v => (fun _ => CbResult.ret v : Callback)))]
          idx p).queued
         = if vs.any (fun v => !isFalseLit v) then [] else [p]) ∧
    (∀ v : PyVal, isFalseLit v = true ↔ v = PyVal.pyBool false) ∧
    isFalseLit PyVal.pyNone = false := by
  refine ⟨?_, ?_, rfl⟩
  · intro vs idx p
    have hk : dictLookup
        [(idx, vs.map (fun v => (fun _ => CbResult.ret v : Callback)))] idx
        = some (vs.map (fun v => (fun _ => CbResult.ret v : Callback))) := by
      simp [dictLookup]
    simp only [runCallbacks, hk]
    rw [runLoop_map_ret p vs 0 false]
    simp
  · intro v
    cases v with
    | pyBool b => cases b <;> simp [isFalseLit]
    | pyNone => simp [isFalseLit]
    | obj n => simp [isFalseLit]

/-- Witness for C10: one callback returning `None` counts as handled, so
the packet is not queued. -/
theorem notHandled_only_literal_false_witness :
    (runCallbacks
        [("s6f11", [PyVal.pyNone].map (fun v => (fun _ => CbResult.ret v : Callback)))]
        "s6f11" pkt6f11).queued = [] := by
  have h := notHandled_only_literal_false.1 [PyVal.pyNone] "s6f11" pkt6f11
  simpa using h

/-! ## C2 -/

/-- C2 amended: when a callback raises during fan-out, the exception is
caught and logged at error level and the dispatcher returns normally, but
the remaining callbacks for the same packet are not invoked (the `try`
wraps the whole loop) and the packet is not queued. -/
theorem callback_exception_caught_but_stops_fanout
    (h : Handler) (p : Packet) (res : Option Message × List LogEntry)
    (pre : List Callback) (c : Callback) (post : List Callback) (e : String)
    (hdec : secsDecode h p = Except.ok res)
    (hcb : dictLookup h.callbacks (callbackIndex p) = some (pre ++ c :: post))
    (hpre : ∀ x ∈ pre, ∃ v, x p = CbResult.ret v)
    (hc : c p = CbResult.exn e) :
    onHsmsPacketReceived h p = Except.ok
      { logs := res.2 ++ [infoLogFor p res.1],
        queuedDirect := [],
        thread := some
          { invoked := List.range (pre.length + 1),
            queued := [],
            logs := [⟨LogLevel.error, callbackErrorMsg e⟩] } } := by
  obtain ⟨m, dl⟩ := res
  obtain ⟨b2, hb2⟩ := runLoop_prefix_exn p e pre c post 0 false hpre hc
  have hrun : runCallbacks h.callbacks (callbackIndex p) p =
      { invoked := List.range (pre.length + 1), queued := [],
        logs := [⟨LogLevel.error, callbackErrorMsg e⟩] } := by
    simp only [runCallbacks, hcb]
    rw [hb2]
    simp [List.range_eq_range']
  simp only [onHsmsPacketReceived, hdec, hcb, hrun]

/-- A handler with three callbacks registered under key `s6f11`, the second
of which raises. -/
def handlerC2 : Handler :=
  { isHost := true,
    secsStreamsFunctionsHost := [],
    secsStreamsFunctionsEquipment := [],
    connection := true,
    callbacks := [("s6f11", [cbFalse, cbRaise, cbNone])],
    transport := fun _ => none }

/-- Witness for C2 amended: with callbacks `[cbFalse, cbRaise, cbNone]`,
only the first two run, the error is logged, the dispatcher returns
normally and nothing is queued. -/
theorem callback_exception_caught_but_stops_fanout_witness :
    onHsmsPacketReceived handlerC2 pkt6f11 = Except.ok
      { logs := [⟨LogLevel.warning, unknownFunctionMsg 6 11⟩, infoLogFor pkt6f11 none],
        queuedDirect := [],
        thread := some
          { invoked := List.range 2,
            queued := [],
            logs := [⟨LogLevel.error, callbackErrorMsg "boom"⟩] } } :=
  callback_exception_caught_but_stops_fanout handlerC2 pkt6f11
    (none, [⟨LogLevel.warning, unknownFunctionMsg 6 11⟩])
    [cbFalse] cbRaise [cbNone] "boom" rfl rfl
    (by intro x hx; fin_cases hx; exact ⟨PyVal.pyBool false, rfl⟩) rfl

/-- A handler whose first callback under `s6f11` raises and whose second
returns `False`. -/
def handlerC2cex : Handler :=
  { isHost := true,
    secsStreamsFunctionsHost := [],
    secsStreamsFunctionsEquipment := [],
    connection := true,
    callbacks := [("s6f11", [cbRaise, cbFalse])],
    transport := fun _ => none }

/-- C2 counterexample to the claim as stated: with callbacks
`[cbRaise, cbFalse]`, only callback 0 is invoked — the raising callback
does prevent its sibling from running (invoked list is `[0]`, not
`[0, 1]`), and the packet is not queued either. -/
theorem callback_exception_skips_sibling_cex :
    onHsmsPacketReceived handlerC2cex pkt6f11 = Except.ok
      { logs := [⟨LogLevel.warning, unknownFunctionMsg 6 11⟩, infoLogFor pkt6f11 none],
        queuedDirect := [],
        thread := some
          { invoked := [0],
            queued := [],
            logs := [⟨LogLevel.error, callbackErrorMsg "boom"⟩] } } :=
  rfl

/-! ## C3 -/

/-- C3 amended: provided decoding the packet does not raise, a packet whose
dispatch key has registered callbacks that all return the literal `False`
has every callback invoked in registration order (positions
`0 .. N-1`) and is pushed to the unclaimed-packet queue exactly once. -/
theorem all_not_handled_invoked_in_order_and_queued_once
    (h : Handler) (p : Packet) (res : Option Message × List LogEntry)
    (cbs : List Callback)
    (hdec : secsDecode h p = Except.ok res)
    (hcb : dictLookup h.callbacks (callbackIndex p) = some cbs)
    (_hne : cbs ≠ [])
    (hall : ∀ c ∈ cbs, c p = CbResult.ret (PyVal.pyBool false)) :
    onHsmsPacketReceived h p = Except.ok
      { logs := res.2 ++ [infoLogFor p res.1],
        queuedDirect := [],
        thread := some
          { invoked := List.range cbs.length, queued := [p], logs := [] } } ∧
    totalQueued
      { logs := res.2 ++ [infoLogFor p res.1],
        queuedDirect := [],
        thread := some
          { invoked := List.range cbs.length, queued := [p], logs := [] } }
      = [p] := by
  obtain ⟨m, dl⟩ := res
  have hrun : runCallbacks h.callbacks (callbackIndex p) p =
      { invoked := List.range cbs.length, queued := [p], logs := [] } := by
    simp only [runCallbacks, hcb]
    rw [runLoop_all_false p cbs 0 false hall]
    simp [List.range_eq_range']
  refine ⟨?_, rfl⟩
  simp only [onHsmsPacketReceived, hdec, hcb, hrun]

/-- A handler with two not-handling callbacks under `s6f11` and empty
tables. -/
def handlerC3w : Handler :=
  { isHost := true,
    secsStreamsFunctionsHost := [],
    secsStreamsFunctionsEquipment := [],
    connection := true,
    callbacks := [("s6f11", [cbFalse, cbFalse])],
    transport := fun _ => none }

/-- Witness for C3 amended at two concrete `False`-returning callbacks:
both invoked in order, packet queued exactly once. -/
theorem all_not_handled_invoked_in_order_and_queued_once_witness :
    onHsmsPacketReceived handlerC3w pkt6f11 = Except.ok
      { logs := [⟨LogLevel.warning, unknownFunctionMsg 6 11⟩, infoLogFor pkt6f11 none],
        queuedDirect := [],
        thread := some
          { invoked := List.range 2, queued := [pkt6f11], logs := [] } } ∧
    totalQueued
      { logs := [⟨LogLevel.warning, unknownFunctionMsg 6 11⟩, infoLogFor pkt6f11 none],
        queuedDirect := [],
        thread := some
          { invoked := List.range 2, queued := [pkt6f11], logs := [] } }
      = [pkt6f11] :=
  all_not_handled_invoked_in_order_and_queued_once handlerC3w pkt6f11
    (none, [⟨LogLevel.warning, unknownFunctionMsg 6 11⟩])
    [cbFalse, cbFalse] rfl rfl (by simp)
    (by intro c hc; fin_cases hc <;> rfl)

/-- A handler whose decode table rejects the body of S6F11 and which has a
not-handling callback registered for it. -/
def handlerC3cex : Handler :=
  { isHost := true,
    secsStreamsFunctionsHost := [],
    secsStreamsFunctionsEquipment := [(6, [(11, descBad)])],
    connection := true,
    callbacks := [("s6f11", [cbFalse])],
    transport := fun _ => none }

/-- C3 counterexample to the claim as stated: the dispatch key has one
registered callback returning `False`, yet the codec exception escapes
`onPacketReceived` before any callback runs — no callback is invoked and
the packet is never queued. -/
theorem all_not_handled_decode_raise_cex :
    onHsmsPacketReceived handlerC3cex pkt6f11 = Except.error "codec failure" :=
  rfl

/-! ## C7 -/

/-- C7 amended: provided decoding the packet does not raise, a packet whose
dispatch key has no registered callbacks is pushed directly to the
unclaimed-packet queue, exactly once. -/
theorem zero_callbacks_queued_exactly_once
    (h : Handler) (p : Packet) (res : Option Message × List LogEntry)
    (hdec : secsDecode h p = Except.ok res)
    (hcb : dictLookup h.callbacks (callbackIndex p) = none) :
    onHsmsPacketReceived h p = Except.ok
      { logs := res.2 ++ [infoLogFor p res.1],
        queuedDirect := [p], thread := none } ∧
    totalQueued
      { logs := res.2 ++ [infoLogFor p res.1],
        queuedDirect := [p], thread := none } = [p] := by
  obtain ⟨m, dl⟩ := res
  refine ⟨?_, rfl⟩
  simp only [onHsmsPacketReceived, hdec, hcb]

/-- A handler with no callbacks and empty tables. -/
def handlerC7w : Handler :=
  { isHost := true,
    secsStreamsFunctionsHost := [],
    secsStreamsFunctionsEquipment := [],
    connection := true,
    callbacks := [],
    transport := fun _ => none }

/-- Witness for C7 amended at a concrete packet with no registered
callbacks: queued exactly once. -/
theorem zero_callbacks_queued_exactly_once_witness :
    onHsmsPacketReceived handlerC7w pkt1f3 = Except.ok
      { logs := [⟨LogLevel.warning, unknownFunctionMsg 1 3⟩, infoLogFor pkt1f3 none],
        queuedDirect := [pkt1f3], thread := none } ∧
    totalQueued
      { logs := [⟨LogLevel.warning, unknownFunctionMsg 1 3⟩, infoLogFor pkt1f3 none],
        queuedDirect := [pkt1f3], thread := none } = [pkt1f3] :=
  zero_callbacks_queued_exactly_once handlerC7w pkt1f3
    (none, [⟨LogLevel.warning, unknownFunctionMsg 1 3⟩]) rfl rfl

/-- A descriptor for S1F3 whose codec decode raises. -/
def descBadS1F3 : Descriptor :=
  { name := "secsS1F3",
    make := fun _ => ⟨"secsS1F3", SecsVal.list []⟩,
    decodeBody := fun _ => Except.error "body rejected" }

/-- A handler with no callbacks whose decode table rejects the body of
S1F3. -/
def handlerC7cex : Handler :=
  { isHost := true,
    secsStreamsFunctionsHost := [],
    secsStreamsFunctionsEquipment := [(1, [(3, descBadS1F3)])],
    connection := true,
    callbacks := [],
    transport := fun _ => none }

/-- C7 counterexample to the claim as stated: a received packet with zero
registered callbacks whose body the codec rejects is never queued — the
exception escapes `onPacketReceived` before the queueing step. -/
theorem zero_callbacks_decode_raise_cex :
    onHsmsPacketReceived handlerC7cex pkt1f3 = Except.error "body rejected" :=
  rfl

/-! ## C4 -/

/-- C4 amended: when the packet's (stream, function) is not found in the
decode table, the miss is logged and the raw packet is still dispatched by
its header (directly to the queue, or to the callback thread when the key
is registered); but when the codec's decode of the body raises, the
exception propagates out of `onPacketReceived` and the packet is not
dispatched at all. -/
theorem decode_failure_vs_dispatch (h : Handler) (p : Packet) :
    (lookupSF (decodeTable h) p.header.stream p.header.function = none →
      (dictLookup h.callbacks (callbackIndex p) = none →
        onHsmsPacketReceived h p = Except.ok
          { logs := [⟨LogLevel.warning,
                       unknownFunctionMsg p.header.stream p.header.function⟩,
                     infoLogFor p none],
            queuedDirect := [p], thread := none }) ∧
      (∀ cbs, dictLookup h.callbacks (callbackIndex p) = some cbs →
        onHsmsPacketReceived h p = Except.ok
          { logs := [⟨LogLevel.warning,
                       unknownFunctionMsg p.header.stream p.header.function⟩,
                     infoLogFor p none],
            queuedDirect := [],
            thread := some (runCallbacks h.callbacks (callbackIndex p) p) })) ∧
    (∀ d e, lookupSF (decodeTable h) p.header.stream p.header.function = some d →
      d.decodeBody p.data = Except.error e →
      onHsmsPacketReceived h p = Except.error e) := by
  constructor
  · intro hnf
    have hdec := secsDecode_notFound h p hnf
    constructor
    · intro hcb
      simp only [onHsmsPacketReceived, hdec, hcb]
      rfl
    · intro cbs hcb
      simp only [onHsmsPacketReceived, hdec, hcb]
      rfl
  · intro d e hd he
    have hdec := secsDecode_codec_error h p d e hd he
    simp only [onHsmsPacketReceived, hdec]

/-- A handler whose decode table does not know S6F11 and which has no
callbacks. -/
def handlerC4w : Handler :=
  { isHost := true,
    secsStreamsFunctionsHost := [],
    secsStreamsFunctionsEquipment := [],
    connection := true,
    callbacks := [],
    transport := fun _ => none }

/-- Witness for C4 amended on the NotFound branch: the undecodable packet
is still queued. -/
theorem decode_failure_vs_dispatch_witness :
    onHsmsPacketReceived handlerC4w pkt6f11 = Except.ok
      { logs := [⟨LogLevel.warning, unknownFunctionMsg 6 11⟩, infoLogFor pkt6f11 none],
        queuedDirect := [pkt6f11], thread := none } :=
  ((decode_failure_vs_dispatch handlerC4w pkt6f11).1 rfl).1 rfl

/-- A handler whose decode table resolves S6F11 to a codec-rejecting
descriptor while a callback is registered for the key. -/
def handlerC4cex : Handler :=
  { isHost := true,
    secsStreamsFunctionsHost := [],
    secsStreamsFunctionsEquipment := [(6, [(11, descBad)])],
    connection := true,
    callbacks := [("s6f11", [cbNone])],
    transport := fun _ => none }

/-- C4 counterexample to the claim as stated: a codec error on the body is
not caught — `onPacketReceived` raises, no callback runs and nothing is
queued, so a decode failure does abort dispatch of that packet. -/
theorem codec_error_aborts_dispatch_cex :
    onHsmsPacketReceived handlerC4cex pkt6f11 = Except.error "codec failure" :=
  rfl

/-! ## C5 -/

/-- C5 amended: with no connection, every convenience operation returns the
soft `None` result immediately without handing anything to the transport —
except `requestSV`, which subscripts the `None` returned by `requestSVs`
and therefore raises a `TypeError`. -/
theorem convenience_ops_no_connection
    (h : Handler) (hconn : h.connection = false)
    (sv ec v : SecsVal) (svs ecs setlist : List SecsVal)
    (tid : Nat) (txt : String) :
    disableCEIDs h = (Except.ok none, []) ∧
    disableCEIDReports h = (Except.ok none, []) ∧
    listSVs h = (Except.ok none, []) ∧
    requestSVs h svs = (Except.ok none, []) ∧
    requestSV h sv =
      (Except.error "TypeError: NoneType object is not subscriptable", []) ∧
    listECs h = (Except.ok none, []) ∧
    requestECs h ecs = (Except.ok none, []) ∧
    requestEC h ec = (Except.ok none, []) ∧
    setECs h setlist = (Except.ok none, []) ∧
    setEC h ec v = (Except.ok none, []) ∧
    sendEquipmentTerminal h tid txt = (Except.ok none, []) ∧
    areYouThere h = (Except.ok none, []) := by
  have hc : (!h.connection) = true := by rw [hconn]; rfl
  refine ⟨?_, ?_, ?_, ?_, ?_, ?_, ?_, ?_, ?_, ?_, ?_, ?_⟩ <;>
    simp [disableCEIDs, disableCEIDReports, listSVs, requestSVs, requestSV,
          listECs, requestECs, requestEC, setECs, setEC,
          sendEquipmentTerminal, areYouThere, queryOperation, hc]

/-- A handler with no connection. -/
def handlerNoConn : Handler :=
  { isHost := true,
    secsStreamsFunctionsHost := [],
    secsStreamsFunctionsEquipment := [],
    connection := false,
    callbacks := [],
    transport := fun _ => none }

/-- Witness for C5 amended at a concrete disconnected handler. -/
theorem convenience_ops_no_connection_witness :
    disableCEIDs handlerNoConn = (Except.ok none, []) ∧
    disableCEIDReports handlerNoConn = (Except.ok none, []) ∧
    listSVs handlerNoConn = (Except.ok none, []) ∧
    requestSVs handlerNoConn [] = (Except.ok none, []) ∧
    requestSV handlerNoConn (SecsVal.num 1) =
      (Except.error "TypeError: NoneType object is not subscriptable", []) ∧
    listECs handlerNoConn = (Except.ok none, []) ∧
    requestECs handlerNoConn [] = (Except.ok none, []) ∧
    requestEC handlerNoConn (SecsVal.num 2) = (Except.ok none, []) ∧
    setECs handlerNoConn [] = (Except.ok none, []) ∧
    setEC handlerNoConn (SecsVal.num 2) (SecsVal.num 3) = (Except.ok none, []) ∧
    sendEquipmentTerminal handlerNoConn 0 "hello" = (Except.ok none, []) ∧
    areYouThere handlerNoConn = (Except.ok none, []) :=
  convenience_ops_no_connection handlerNoConn rfl
    (SecsVal.num 1) (SecsVal.num 2) (SecsVal.num 3) [] [] [] 0 "hello"

/-- C5 counterexample to the claim as stated: `requestSV` with no
connection raises a `TypeError` instead of returning the soft `None`. -/
theorem requestSV_no_connection_raises_cex :
    requestSV handlerNoConn (SecsVal.num 7) =
      (Except.error "TypeError: NoneType object is not subscriptable", []) :=
  rfl

/-! ## C8 -/

/-- C8 amended: the two deep copies run once, at class-definition time.
They isolate the class-level tables from the module-level prototypes, but
every handler instance shares the same class-level table objects, so an
in-place mutation through one instance is observable through any other. -/
theorem class_tables_shared_across_instances
    (protoHost protoEquipment : SFTable) (stream : Nat)
    (inner : List (Nat × Descriptor)) :
    (let m1 := Heap.empty.alloc protoHost
     let m2 := m1.1.alloc protoEquipment
     let ci := secsHandlerClassInit m2.1 m1.2 m2.2
     let instA := secsHandlerInstanceInit ci.2
     let instB := secsHandlerInstanceInit ci.2
     let heap2 := instA.setHostItem ci.1 stream inner
     instB.hostTable ci.1 = protoHost ∧
     instB.hostTable heap2 = dictInsert protoHost stream inner ∧
     heap2.read m1.2 = protoHost) :=
  ⟨rfl, rfl, rfl⟩

/-- An empty module-level host prototype table. -/
def protoHostC8 : SFTable := []

/-- An empty module-level equipment prototype table. -/
def protoEquipC8 : SFTable := []

/-- The module heap after allocating the two prototypes. -/
def heapC8a : Heap × Ref := Heap.empty.alloc protoHostC8

/-- The module heap and equipment prototype reference. -/
def heapC8b : Heap × Ref := heapC8a.1.alloc protoEquipC8

/-- The heap and class attributes after the class body runs. -/
def classC8 : Heap × SecsHandlerClass :=
  secsHandlerClassInit heapC8b.1 heapC8a.2 heapC8b.2

/-- First handler instance. -/
def instAC8 : HandlerInstance := secsHandlerInstanceInit classC8.2

/-- Second handler instance. -/
def instBC8 : HandlerInstance := secsHandlerInstanceInit classC8.2

/-- The heap after instance A adds stream 99 to its host table. -/
def heapC8mut : Heap := instAC8.setHostItem classC8.1 99 []

/-- C8 counterexample to the claim as stated: before the mutation instance
B sees no stream 99; after instance A inserts stream 99, instance B
observes it — the mutation of one instance's descriptor set is visible in
the other instance. -/
theorem instance_mutation_visible_cex :
    dictLookup (instBC8.hostTable classC8.1) 99 = none ∧
    dictLookup (instBC8.hostTable heapC8mut) 99 = some [] :=
  ⟨rfl, rfl⟩
